import Mathlib

/-
Shallow embedding of the observability core of the two-service document
pipeline (document-api and data-store).  The embedding covers:

  * the correlation-id context (`telemetry.py`: a ContextVar with default "":
    `get_correlation_id`, `set_correlation_id`),
  * structured logging (`observability.py`: `log_with_context`),
  * span-attribute construction (`observability.py`: `create_span`),
  * HTTP request metrics (`observability.py`: `log_request_metrics`),
  * the per-request timing middleware (`main.py`: `add_process_time_header`),
  * the database operation tracker (`data-store/observability.py`:
    `track_db_operation` and its inner `DBOperationTracker`),
  * the document-api health-check metric emission (`document-api/main.py`:
    `health_check`).

Telemetry side effects (counter increments, histogram samples, log records,
span lifecycle operations) are modelled as an explicit trace of `Event`
values produced in the order the Python code performs them.  Wall-clock
readings (`time.time()`) are passed in as explicit rational parameters, one
per call site.  Python dictionaries keyed by strings are modelled as
association lists built with Python's insertion/override semantics
(`dictInsert` / `dictMerge`).
-/

/-- Log severity levels accepted by the structured logger
(`log_with_context` dispatches on these five strings). -/
inductive Level
  | debug
  | info
  | warning
  | error
  | critical
  deriving DecidableEq

/-- Scalar attribute / label values that the Python code attaches to spans,
metrics and log records: strings, booleans (e.g. `exc_type is None`) and
numbers (durations, timestamps). -/
inductive AttrVal
  | str (s : String)
  | bool (b : Bool)
  | num (q : ℚ)
  deriving DecidableEq

/-- A Python dict with string keys, in insertion order. -/
abbrev Labels := List (String × AttrVal)

/-- One observable side effect of the instrumentation code, in program
order: a counter increment, a histogram sample, a dispatched log record, a
span being started, a span attribute being set, or a span being ended. -/
inductive Event
  | counterAdd (instrument : String) (value : Nat) (labels : Labels)
  | histRecord (instrument : String) (value : ℚ) (labels : Labels)
  | logLine (level : Level) (message : String) (data : Labels)
  | spanStart (name : String) (attributes : Labels)
  | spanSetAttr (key : String) (value : AttrVal)
  | spanEnd
  deriving DecidableEq

/-- Dictionary lookup: first binding for the key, as in a Python dict where
keys are unique. -/
def dictGet {α : Type} (k : String) : List (String × α) → Option α
  | [] => none
  | (k2, v) :: rest => if k = k2 then some v else dictGet k rest

/-- Dictionary insertion with Python semantics: overwrite an existing
binding in place (keeping its position), otherwise append at the end. -/
def dictInsert {α : Type} (k : String) (v : α) : List (String × α) → List (String × α)
  | [] => [(k, v)]
  | (k2, v2) :: rest =>
    if k = k2 then (k2, v) :: rest else (k2, v2) :: dictInsert k v rest

/-- The Python dict-display merge `{**base-entries, **upd}`: start from the
base bindings and insert the update bindings one by one, so later bindings
override earlier ones. -/
def dictMerge {α : Type} (base upd : List (String × α)) : List (String × α) :=
  upd.foldl (fun d kv => dictInsert kv.1 kv.2 d) base

/-- The correlation-id ContextVar of `telemetry.py`
(`ContextVar("correlation_id", default="")`): either a value has been
installed with `set`, or nothing was ever installed. -/
structure CorrelationCtx where
  installed : Option String
  deriving DecidableEq

/-- `telemetry.py` `get_correlation_id`: return the ContextVar value, which
is the installed id, or the ContextVar default `""` when nothing was ever
installed. -/
def get_correlation_id (c : CorrelationCtx) : String :=
  c.installed.getD ""

/-- `telemetry.py` `set_correlation_id`: install `corrId` as the value of
the ContextVar for the current logical scope. -/
def set_correlation_id (corrId : String) (_c : CorrelationCtx) : CorrelationCtx :=
  ⟨some corrId⟩

/-- A context in which no correlation id was ever installed. -/
def freshContext : CorrelationCtx := ⟨none⟩

/-- A Python exception as observed by a context manager's exit hook:
`str(exc_val)` and `exc_type.__name__`. -/
structure PyExc where
  msg : String
  excType : String
  deriving DecidableEq

/-- The `if level == "debug": ... elif ... else: logger.info` chain shared
verbatim by both services' `log_with_context`: unknown level strings fall
back to info. -/
def dispatchLevel (level : String) : Level :=
  if level = "debug" then .debug
  else if level = "info" then .info
  else if level = "warning" then .warning
  else if level = "error" then .error
  else if level = "critical" then .critical
  else .info

/-- Decimal digits of the proper fraction `num / den` (with `num < den`),
up to `fuel` digits; model of the fractional part of Python's `str(float)`. -/
def decimalDigits (num den : Nat) : Nat → String
  | 0 => ""
  | fuel + 1 =>
    if num = 0 then ""
    else toString (num * 10 / den) ++ decimalDigits (num * 10 % den) den fuel

/-- Rendering of a rational number of seconds as a decimal string; the model
of Python's `str(process_time)` used for the X-Process-Time header value. -/
def decimalString (q : ℚ) : String :=
  let sign := if q < 0 then "-" else ""
  let n := q.num.natAbs
  let d := q.den
  let fracDigits := decimalDigits (n % d) d 40
  sign ++ toString (n / d) ++ "." ++ (if fracDigits = "" then "0" else fracDigits)

/-- The behaviour of the logging backend (`logger.debug` / `.info` / ... in
Python's `logging` module) on one dispatched record: `none` when the record
is accepted, `some err` when the backend raises (for example the documented
`KeyError` that `Logger.makeRecord` raises when `extra` contains a reserved
record key). -/
abbrev LogSink := Level → String → Labels → Option String

/-- The HTTP response object seen by the timing middleware: a status code
and mutable headers. -/
structure Response where
  status : Nat
  headers : List (String × String)
  deriving DecidableEq

/-- Outcome of `await call_next(request)`: either a response object or a
propagating exception. -/
inductive HandlerOutcome
  | ok (resp : Response)
  | raise (err : String)
  deriving DecidableEq

namespace DocumentAPI

/-- `document-api/observability.py` `create_span`, lines 283-301: the span
attribute set is the dict display with the built-in fields first and the
caller kwargs merged last (so caller kwargs override built-in fields). -/
def create_span_attrs (ctx : CorrelationCtx) (operation : String) (attributes : Labels) : Labels :=
  dictMerge
    [("correlation_id", .str (get_correlation_id ctx)),
     ("operation", .str operation),
     ("service", .str "document-api")]
    attributes

/-- `document-api/observability.py` `create_span`: starting the span emits a
span-start event carrying the merged attribute set. -/
def create_span (ctx : CorrelationCtx) (name operation : String) (attributes : Labels) : Event :=
  .spanStart name (create_span_attrs ctx operation attributes)

/-- `document-api/observability.py` `log_with_context` lines 348-359: the
`log_data` dict, with built-in fields (correlation id, message, service,
timestamp) first and the caller kwargs merged last. -/
def buildLogData (ctx : CorrelationCtx) (now : ℚ) (message : String) (kwargs : Labels) : Labels :=
  dictMerge
    [("correlation_id", .str (get_correlation_id ctx)),
     ("log_message", .str message),
     ("service", .str "document-api"),
     ("timestamp", .num now)]
    kwargs

/-- `document-api/observability.py` `log_with_context` lines 303-375: build
`log_data`, pick the severity by the if/elif chain (unknown levels fall back
to info) and hand the record to the logging backend.  The body contains no
try/except, so a failure raised by the backend propagates to the caller;
this is modelled by the `Except` result. -/
def log_with_context (sink : LogSink) (ctx : CorrelationCtx) (now : ℚ)
    (message level : String) (kwargs : Labels) : Except String Event :=
  let log_data := buildLogData ctx now message kwargs
  let lvl := dispatchLevel level
  match sink lvl message log_data with
  | some err => .error err
  | none => .ok (.logLine lvl message log_data)

/-- The log record dispatched by a `log_with_context` call whose backend
accepts the record. -/
def logEvent (ctx : CorrelationCtx) (now : ℚ) (message level : String) (kwargs : Labels) : Event :=
  .logLine (dispatchLevel level) message (buildLogData ctx now message kwargs)

/-- `document-api/observability.py` `log_request_metrics` lines 191-250:
one request-counter increment, one duration-histogram sample, and an
error-counter increment exactly when the status code is at least 400, with
the label sets written in the source. -/
def log_request_metrics (ctx : CorrelationCtx) (method path : String)
    (statusCode : Nat) (duration : ℚ) : List Event :=
  let correlation_id := get_correlation_id ctx
  [Event.counterAdd "http_requests_total" 1
      [("method", .str method), ("path", .str path),
       ("status_code", .str (toString statusCode)),
       ("correlation_id", .str correlation_id),
       ("service", .str "document-api")],
   Event.histRecord "http_request_duration_seconds" duration
      [("method", .str method), ("path", .str path),
       ("correlation_id", .str correlation_id),
       ("service", .str "document-api")]]
  ++ (if 400 ≤ statusCode then
      [Event.counterAdd "http_errors_total" 1
        [("method", .str method), ("path", .str path),
         ("status_code", .str (toString statusCode)),
         ("correlation_id", .str correlation_id),
         ("service", .str "document-api"),
         ("error_category", .str (if statusCode < 500 then "4xx" else "5xx"))]]
    else [])

/-- `document-api/main.py` `add_process_time_header` lines 36-51: record the
start time, await the handler, then set the X-Process-Time header to
`str(process_time)` and call `log_request_metrics`.  The body has no
try/finally, so when `call_next` raises, nothing after it runs: no header is
set and no metric or log event is emitted (the empty trace), and the
exception propagates. -/
def add_process_time_header (ctx : CorrelationCtx) (method path : String)
    (startTime endTime : ℚ) (outcome : HandlerOutcome) :
    Except String Response × List Event :=
  match outcome with
  | .raise e => (.error e, [])
  | .ok response =>
    let process_time := endTime - startTime
    (.ok { response with
            headers := dictInsert "X-Process-Time" (decimalString process_time) response.headers },
     log_request_metrics ctx method path response.status process_time)

/-- `document-api/main.py` `health_check` lines 53-96 (the non-raising
body): compute the component statuses and the overall status, then emit one
health-check counter increment labelled only with the status, one
health-check duration sample with no labels at all, and one info log.
`fsOk` models `UPLOADS_DIR.exists() and UPLOADS_DIR.is_dir()`; `dsStatus`
models the data-store probe (`none` when the HTTP call raised). -/
def health_check (ctx : CorrelationCtx) (fsOk : Bool) (dsStatus : Option Nat)
    (startTime now tLog : ℚ) : List Event :=
  let fs_status := if fsOk then "healthy" else "unhealthy"
  let data_store_status :=
    match dsStatus with
    | some code => if code = 200 then "healthy" else "unhealthy"
    | none => "unhealthy"
  let overall_status :=
    if fs_status = "healthy" ∧ data_store_status = "healthy" then "healthy" else "degraded"
  [Event.counterAdd "health_check_total" 1 [("status", .str overall_status)],
   Event.histRecord "health_check_duration_seconds" (now - startTime) [],
   logEvent ctx tLog "Health check completed" "info"
     [("overall_status", .str overall_status),
      ("fs_status", .str fs_status),
      ("data_store_status", .str data_store_status)]]

end DocumentAPI

namespace DataStore

/-- `data-store/observability.py` `create_span`, lines 369-390: same shape
as the document-api version plus the fixed `service_type` field; caller
kwargs are merged last and override built-in fields. -/
def create_span_attrs (ctx : CorrelationCtx) (operation : String) (attributes : Labels) : Labels :=
  dictMerge
    [("correlation_id", .str (get_correlation_id ctx)),
     ("operation", .str operation),
     ("service", .str "data-store"),
     ("service_type", .str "database_service")]
    attributes

/-- `data-store/observability.py` `create_span`: starting the span emits a
span-start event carrying the merged attribute set. -/
def create_span (ctx : CorrelationCtx) (name operation : String) (attributes : Labels) : Event :=
  .spanStart name (create_span_attrs ctx operation attributes)

/-- `data-store/observability.py` `log_with_context` lines 455-462: the
`log_data` dict with the data-store built-in fields first and the caller
kwargs merged last. -/
def buildLogData (ctx : CorrelationCtx) (now : ℚ) (message : String) (kwargs : Labels) : Labels :=
  dictMerge
    [("correlation_id", .str (get_correlation_id ctx)),
     ("log_message", .str message),
     ("service", .str "data-store"),
     ("service_type", .str "database_service"),
     ("timestamp", .num now)]
    kwargs

/-- `data-store/observability.py` `log_with_context` lines 392-479: build
`log_data`, dispatch by the if/elif level chain (unknown levels fall back to
info).  No try/except in the body: a failure raised by the logging backend
propagates to the caller. -/
def log_with_context (sink : LogSink) (ctx : CorrelationCtx) (now : ℚ)
    (message level : String) (kwargs : Labels) : Except String Event :=
  let log_data := buildLogData ctx now message kwargs
  let lvl := dispatchLevel level
  match sink lvl message log_data with
  | some err => .error err
  | none => .ok (.logLine lvl message log_data)

/-- The log record dispatched by a data-store `log_with_context` call whose
backend accepts the record (the case for the tracker's internal logs, whose
fixed field names do not clash with reserved record keys). -/
def logEvent (ctx : CorrelationCtx) (now : ℚ) (message level : String) (kwargs : Labels) : Event :=
  .logLine (dispatchLevel level) message (buildLogData ctx now message kwargs)

/-- `data-store/observability.py` `log_request_metrics` lines 252-326: as in
document-api but with the extra `service_type` label on every sample. -/
def log_request_metrics (ctx : CorrelationCtx) (method path : String)
    (statusCode : Nat) (duration : ℚ) : List Event :=
  let correlation_id := get_correlation_id ctx
  [Event.counterAdd "http_requests_total" 1
      [("method", .str method), ("path", .str path),
       ("status_code", .str (toString statusCode)),
       ("correlation_id", .str correlation_id),
       ("service", .str "data-store"),
       ("service_type", .str "database_service")],
   Event.histRecord "http_request_duration_seconds" duration
      [("method", .str method), ("path", .str path),
       ("correlation_id", .str correlation_id),
       ("service", .str "data-store"),
       ("service_type", .str "database_service")]]
  ++ (if 400 ≤ statusCode then
      [Event.counterAdd "http_errors_total" 1
        [("method", .str method), ("path", .str path),
         ("status_code", .str (toString statusCode)),
         ("correlation_id", .str correlation_id),
         ("service", .str "data-store"),
         ("service_type", .str "database_service"),
         ("error_category", .str (if statusCode < 500 then "4xx" else "5xx"))]]
    else [])

/-- `data-store/main.py` `add_process_time_header` lines 37-52: identical
control flow to the document-api middleware (no try/finally around
`call_next`), calling the data-store `log_request_metrics`. -/
def add_process_time_header (ctx : CorrelationCtx) (method path : String)
    (startTime endTime : ℚ) (outcome : HandlerOutcome) :
    Except String Response × List Event :=
  match outcome with
  | .raise e => (.error e, [])
  | .ok response =>
    let process_time := endTime - startTime
    (.ok { response with
            headers := dictInsert "X-Process-Time" (decimalString process_time) response.headers },
     log_request_metrics ctx method path response.status process_time)

/-- `data-store/observability.py` line 601: the span opened by
`track_db_operation` is named `f"db_{operation}"`. -/
def track_db_operation_span_name (operation : String) : String :=
  "db_" ++ operation

/-- `data-store/observability.py` `DBOperationTracker.__exit__` lines
646-715, as the event trace it emits: one `database_operations_total`
increment whose `success` label is `exc_type is None`, one
`database_operation_duration_seconds` sample, the four unconditional span
attributes, then on the error path the `error` / `error_type` span
attributes and an error-level log, or on the success path a debug-level
log, and finally `span.end()`.  `tExit` is the `time.time()` reading used
for the duration, `tLog` the one taken inside the nested
`log_with_context`. -/
def dbOperationTrackerExit (ctx : CorrelationCtx) (operation tbl : String)
    (startTime tExit tLog : ℚ) (exc : Option PyExc) : List Event :=
  let correlation_id := get_correlation_id ctx
  let duration := tExit - startTime
  [Event.counterAdd "database_operations_total" 1
      [("operation", .str operation), ("table", .str tbl),
       ("success", .bool exc.isNone),
       ("correlation_id", .str correlation_id),
       ("service", .str "data-store"),
       ("service_type", .str "database_service")],
   Event.histRecord "database_operation_duration_seconds" duration
      [("operation", .str operation), ("table", .str tbl),
       ("correlation_id", .str correlation_id),
       ("service", .str "data-store"),
       ("service_type", .str "database_service")],
   Event.spanSetAttr "duration" (.num duration),
   Event.spanSetAttr "success" (.bool exc.isNone),
   Event.spanSetAttr "table" (.str tbl),
   Event.spanSetAttr "operation_type" (.str operation)]
  ++ (match exc with
      | some e =>
        [Event.spanSetAttr "error" (.str e.msg),
         Event.spanSetAttr "error_type" (.str e.excType),
         logEvent ctx tLog
           ("Database operation failed: " ++ operation ++ " on " ++ tbl) "error"
           [("operation", .str operation), ("table", .str tbl),
            ("error", .str e.msg), ("duration", .num duration)]]
      | none =>
        [logEvent ctx tLog
           ("Database operation completed: " ++ operation ++ " on " ++ tbl) "debug"
           [("operation", .str operation), ("table", .str tbl),
            ("duration", .num duration)]])
  ++ [Event.spanEnd]

/-- `DBOperationTracker.__exit__` has no return statement, so it returns
Python `None`. -/
def dbExitReturnValue : Option Bool := none

/-- Python truthiness of the `__exit__` return value as used by the `with`
statement to decide whether to suppress the exception: `None` is falsy. -/
def truthy : Option Bool → Bool
  | none => false
  | some b => b

/-- `with track_db_operation(operation, tbl, **attributes): body`
(`data-store/observability.py` lines 540-718 together with Python's `with`
statement semantics): read the correlation id and open the span named
`f"db_{operation}"` with kwargs `{table: tbl, **attributes}` on entry, run
the body, and on every exit path run `DBOperationTracker.__exit__`.  When
the body raises, the `with` statement re-raises the original exception
unless `__exit__` returned a truthy value.  The result pairs the outcome
seen by the caller with the trace of events the tracker itself emitted. -/
def withTrackDbOperation (ctx : CorrelationCtx) (operation tbl : String)
    (attributes : Labels) (startTime tExit tLog : ℚ)
    (body : Except PyExc Unit) : Except PyExc Unit × List Event :=
  let enter :=
    create_span ctx (track_db_operation_span_name operation) "database_operation"
      (("table", .str tbl) :: attributes)
  match body with
  | .ok _ =>
    (.ok (), enter :: dbOperationTrackerExit ctx operation tbl startTime tExit tLog none)
  | .error e =>
    (if truthy dbExitReturnValue then .ok () else .error e,
     enter :: dbOperationTrackerExit ctx operation tbl startTime tExit tLog (some e))

end DataStore

/-- Number of events in a trace satisfying a predicate. -/
def countEvents (p : Event → Bool) (evs : List Event) : Nat :=
  (evs.filter p).length

/-- Is the event an increment of the `database_operations_total` counter? -/
def isDbOpCounter : Event → Bool
  | .counterAdd instrument _ _ => instrument = "database_operations_total"
  | _ => false

/-- Is the event a `database_operation_duration_seconds` histogram sample? -/
def isDbOpHist : Event → Bool
  | .histRecord instrument _ _ => instrument = "database_operation_duration_seconds"
  | _ => false

/-- Is the event an increment of the `http_requests_total` counter? -/
def isRequestCounter : Event → Bool
  | .counterAdd instrument _ _ => instrument = "http_requests_total"
  | _ => false

/-- Is the event an `http_request_duration_seconds` histogram sample? -/
def isRequestDurationHist : Event → Bool
  | .histRecord instrument _ _ => instrument = "http_request_duration_seconds"
  | _ => false

/-- Is the event an increment of the `http_errors_total` counter? -/
def isErrorCounter : Event → Bool
  | .counterAdd instrument _ _ => instrument = "http_errors_total"
  | _ => false

/-- Is the event a metric sample (counter increment or histogram record)? -/
def isMetricEvent : Event → Bool
  | .counterAdd _ _ _ => true
  | .histRecord _ _ _ => true
  | _ => false

/-- Is the event the end of a span? -/
def isSpanEnd : Event → Bool
  | .spanEnd => true
  | _ => false

/-- The label set of a metric, log or span-start event. -/
def eventLabels : Event → Labels
  | .counterAdd _ _ labels => labels
  | .histRecord _ _ labels => labels
  | .logLine _ _ data => data
  | .spanStart _ attributes => attributes
  | _ => []

/-- The severity levels of all log records in a trace, in order. -/
def logLineLevels (evs : List Event) : List Level :=
  evs.filterMap fun ev =>
    match ev with
    | .logLine lvl _ _ => some lvl
    | _ => none

/-- The value of the `success` label of every `database_operations_total`
increment in a trace. -/
def dbCounterSuccessValues (evs : List Event) : List (Option AttrVal) :=
  (evs.filter isDbOpCounter).map fun ev => dictGet "success" (eventLabels ev)

/-- The names of all spans started in a trace, in order. -/
def spanStartNames : List Event → List String
  | [] => []
  | .spanStart n _ :: rest => n :: spanStartNames rest
  | _ :: rest => spanStartNames rest

/-- The attribute sets of all spans started in a trace, in order. -/
def spanStartAttrSets : List Event → List Labels
  | [] => []
  | .spanStart _ attrs :: rest => attrs :: spanStartAttrSets rest
  | _ :: rest => spanStartAttrSets rest

/-- Does the label set contain a binding for the key? -/
def hasKey (k : String) (labels : Labels) : Bool :=
  (dictGet k labels).isSome

/-- A metric event carries both the service identity and the correlation id
in its label set; non-metric events pass trivially. -/
def metricLabelsOK : Event → Bool
  | .counterAdd _ _ labels => hasKey "service" labels && hasKey "correlation_id" labels
  | .histRecord _ _ labels => hasKey "service" labels && hasKey "correlation_id" labels
  | _ => true

/-- Every metric sample in the trace carries service identity and
correlation id labels. -/
def metricsAllLabelled (evs : List Event) : Bool :=
  evs.all metricLabelsOK

/-- The label keys of every metric sample in a trace, in order. -/
def metricEventLabelKeys (evs : List Event) : List (List String) :=
  (evs.filter isMetricEvent).map fun ev => (eventLabels ev).map Prod.fst

/-- Success flag of a tracked body, as the tracker computes it:
`exc_type is None`. -/
def bodySucceeded : Except PyExc Unit → Bool
  | .ok _ => true
  | .error _ => false

theorem dictGet_dictInsert {α : Type} (k k2 : String) (v : α)
    (d : List (String × α)) :
    dictGet k (dictInsert k2 v d) = if k = k2 then some v else dictGet k d := by
  induction d with
  | nil => simp [dictInsert, dictGet]
  | cons kv rest ih =>
    obtain ⟨k3, v3⟩ := kv
    by_cases h2 : k2 = k3
    · subst h2
      by_cases h : k = k2 <;> simp [dictInsert, dictGet, h]
    · by_cases h : k = k3
      · subst h
        have hk2 : ¬ k = k2 := fun hh => h2 hh.symm
        simp [dictInsert, dictGet, h2, hk2]
      · simp [dictInsert, dictGet, h2, h, ih]

theorem dictGet_eq_none_of_not_mem {α : Type} (k : String)
    (d : List (String × α)) (h : k ∉ d.map Prod.fst) :
    dictGet k d = none := by
  induction d with
  | nil => simp [dictGet]
  | cons kv rest ih =>
    simp only [List.map_cons, List.mem_cons] at h
    push_neg at h
    simp [dictGet, h.1, ih h.2]

theorem dictGet_dictMerge_of_none {α : Type} (k : String)
    (base upd : List (String × α)) (h : dictGet k upd = none) :
    dictGet k (dictMerge base upd) = dictGet k base := by
  induction upd generalizing base with
  | nil => simp [dictMerge]
  | cons kv rest ih =>
    obtain ⟨k2, v2⟩ := kv
    simp only [dictGet] at h
    by_cases hk : k = k2
    · simp [hk] at h
    · simp only [hk, if_false] at h
      have : dictMerge base ((k2, v2) :: rest) = dictMerge (dictInsert k2 v2 base) rest := rfl
      rw [this, ih _ h, dictGet_dictInsert, if_neg hk]

theorem dictGet_dictMerge_of_some {α : Type} (k : String) (v : α)
    (base upd : List (String × α)) (hnd : (upd.map Prod.fst).Nodup)
    (h : dictGet k upd = some v) :
    dictGet k (dictMerge base upd) = some v := by
  induction upd generalizing base with
  | nil => simp [dictGet] at h
  | cons kv rest ih =>
    obtain ⟨k2, v2⟩ := kv
    simp only [List.map_cons, List.nodup_cons] at hnd
    have hmerge : dictMerge base ((k2, v2) :: rest) = dictMerge (dictInsert k2 v2 base) rest := rfl
    simp only [dictGet] at h
    by_cases hk : k = k2
    · simp only [hk, if_true] at h
      have hnone : dictGet k rest = none := by
        apply dictGet_eq_none_of_not_mem
        rw [hk]
        exact hnd.1
      rw [hmerge, dictGet_dictMerge_of_none _ _ _ hnone, dictGet_dictInsert, if_pos hk, h]
    · simp only [hk, if_false] at h
      rw [hmerge, ih _ hnd.2 h]

/-- Claim C6: a correlation id installed with `set_correlation_id` and read
back with `get_correlation_id` within the same logical scope is returned
exactly, and with no id ever installed `get_correlation_id` returns the
empty-string sentinel rather than raising. -/
theorem c6_correlation_id_roundtrip (corrId : String) (c : CorrelationCtx) :
    get_correlation_id (set_correlation_id corrId c) = corrId
    ∧ get_correlation_id freshContext = "" :=
  ⟨rfl, rfl⟩

/-- Claim C5 counterexample: `log_with_context` does not swallow failures.
With a logging backend that raises (as `Logger.makeRecord` does for a
reserved extra key), the call fails instead of returning normally — the
function body contains no try/except. -/
theorem c5_counterexample :
    DocumentAPI.log_with_context (fun _ _ _ => some "KeyError") ⟨some "abc-123"⟩ 0
      "File uploaded" "info" [] = .error "KeyError" :=
  rfl

/-- Claim C5 amended: `log_with_context` contains no exception handling; a
failure raised by the severity sink propagates to the caller unchanged,
while for a sink that accepts the record the call dispatches exactly one
log record at the level selected by the if/elif chain (unknown levels fall
back to info), in both services. -/
theorem c5_amended (ctx : CorrelationCtx) (now : ℚ) (message level err : String)
    (kwargs : Labels) :
    (DocumentAPI.log_with_context (fun _ _ _ => some err) ctx now message level kwargs
       = .error err)
    ∧ (DocumentAPI.log_with_context (fun _ _ _ => none) ctx now message level kwargs
       = .ok (.logLine (dispatchLevel level) message
            (DocumentAPI.buildLogData ctx now message kwargs)))
    ∧ (DataStore.log_with_context (fun _ _ _ => some err) ctx now message level kwargs
       = .error err)
    ∧ (DataStore.log_with_context (fun _ _ _ => none) ctx now message level kwargs
       = .ok (.logLine (dispatchLevel level) message
            (DataStore.buildLogData ctx now message kwargs))) :=
  ⟨rfl, rfl, rfl, rfl⟩

/-- Claim C3 counterexample: tracking operation "insert" on table
"documentmetadata" opens a span named "db_insert", not the
"insert_documentmetadata" the claim requires. -/
theorem c3_counterexample :
    spanStartNames (DataStore.withTrackDbOperation ⟨some "abc"⟩ "insert" "documentmetadata"
        [] 0 1 1 (.ok ())).2 = ["db_insert"]
    ∧ "db_insert" ≠ "insert_documentmetadata" := by
  constructor
  · rfl
  · decide

/-- Claim C3 amended: the span opened for a tracked database operation is
named `db_{operationType}`; the resource (table) name is carried as the
span's `table` attribute rather than in the span name. -/
theorem c3_amended (ctx : CorrelationCtx) (operation tbl : String) (attrs : Labels)
    (t0 t1 t2 : ℚ) (body : Except PyExc Unit)
    (h : dictGet "table" attrs = none) :
    spanStartNames (DataStore.withTrackDbOperation ctx operation tbl attrs t0 t1 t2 body).2
      = ["db_" ++ operation]
    ∧ (spanStartAttrSets
         (DataStore.withTrackDbOperation ctx operation tbl attrs t0 t1 t2 body).2).map
        (dictGet "table") = [some (.str tbl)] := by
  have htable : ∀ base : Labels,
      dictGet "table" (dictMerge base (("table", AttrVal.str tbl) :: attrs))
        = some (.str tbl) := by
    intro base
    have h1 : dictMerge base (("table", AttrVal.str tbl) :: attrs)
        = dictMerge (dictInsert "table" (.str tbl) base) attrs := rfl
    rw [h1, dictGet_dictMerge_of_none _ _ _ h, dictGet_dictInsert]
    simp
  cases body with
  | ok a =>
    cases a
    constructor
    · simp [DataStore.withTrackDbOperation, DataStore.dbOperationTrackerExit,
        DataStore.create_span, DataStore.track_db_operation_span_name,
        DataStore.logEvent, spanStartNames]
    · simp [DataStore.withTrackDbOperation, DataStore.dbOperationTrackerExit,
        DataStore.create_span, DataStore.create_span_attrs,
        DataStore.track_db_operation_span_name,
        DataStore.logEvent, spanStartAttrSets, htable]
  | error e =>
    constructor
    · simp [DataStore.withTrackDbOperation, DataStore.dbOperationTrackerExit,
        DataStore.create_span, DataStore.track_db_operation_span_name,
        DataStore.logEvent, spanStartNames]
    · simp [DataStore.withTrackDbOperation, DataStore.dbOperationTrackerExit,
        DataStore.create_span, DataStore.create_span_attrs,
        DataStore.track_db_operation_span_name,
        DataStore.logEvent, spanStartAttrSets, htable]

/-- Witness for the amended C3 theorem at a concrete input. -/
theorem c3_amended_witness :
    dictGet "table" ([] : Labels) = none
    ∧ (spanStartNames (DataStore.withTrackDbOperation ⟨some "X"⟩ "update" "docs"
          [] 0 1 1 (.error ⟨"boom", "ValueError"⟩)).2 = ["db_" ++ "update"]
       ∧ (spanStartAttrSets
            (DataStore.withTrackDbOperation ⟨some "X"⟩ "update" "docs"
              [] 0 1 1 (.error ⟨"boom", "ValueError"⟩)).2).map
           (dictGet "table") = [some (.str "docs")]) :=
  ⟨rfl, c3_amended ⟨some "X"⟩ "update" "docs" [] 0 1 1 (.error ⟨"boom", "ValueError"⟩) rfl⟩

/-- Claim C4 counterexample: when `call_next` raises, the timing middleware
emits nothing — no counter increment, no duration sample, no header — and
the exception propagates: its body has no try/finally, so the completion
step is skipped on the raising path. -/
theorem c4_counterexample :
    DocumentAPI.add_process_time_header ⟨some "abc"⟩ "GET" "/health" 0 1 (.raise "boom")
      = (.error "boom", []) :=
  rfl

/-- Claim C4 amended: in both services the middleware completion step —
request counter, duration sample, conditional error counter and the
X-Process-Time header — runs exactly when `call_next` returns a response;
when the handler raises an error that propagates out of `call_next`, the
middleware emits no events, sets no header, and the exception propagates. -/
theorem c4_amended (ctx : CorrelationCtx) (method path : String) (t0 t1 : ℚ)
    (resp : Response) (err : String) :
    (DocumentAPI.add_process_time_header ctx method path t0 t1 (.raise err)
       = (.error err, []))
    ∧ (DataStore.add_process_time_header ctx method path t0 t1 (.raise err)
       = (.error err, []))
    ∧ countEvents isRequestCounter
        (DocumentAPI.add_process_time_header ctx method path t0 t1 (.ok resp)).2 = 1
    ∧ countEvents isRequestDurationHist
        (DocumentAPI.add_process_time_header ctx method path t0 t1 (.ok resp)).2 = 1
    ∧ countEvents isErrorCounter
        (DocumentAPI.add_process_time_header ctx method path t0 t1 (.ok resp)).2
        = (if 400 ≤ resp.status then 1 else 0)
    ∧ ((DocumentAPI.add_process_time_header ctx method path t0 t1 (.ok resp)).1
        = .ok { resp with
            headers := dictInsert "X-Process-Time" (decimalString (t1 - t0)) resp.headers })
    ∧ countEvents isRequestCounter
        (DataStore.add_process_time_header ctx method path t0 t1 (.ok resp)).2 = 1
    ∧ countEvents isRequestDurationHist
        (DataStore.add_process_time_header ctx method path t0 t1 (.ok resp)).2 = 1
    ∧ countEvents isErrorCounter
        (DataStore.add_process_time_header ctx method path t0 t1 (.ok resp)).2
        = (if 400 ≤ resp.status then 1 else 0)
    ∧ ((DataStore.add_process_time_header ctx method path t0 t1 (.ok resp)).1
        = .ok { resp with
            headers := dictInsert "X-Process-Time" (decimalString (t1 - t0)) resp.headers }) := by
  refine ⟨rfl, rfl, ?_, ?_, ?_, rfl, ?_, ?_, ?_, rfl⟩ <;>
    by_cases h400 : 400 ≤ resp.status <;>
      simp [DocumentAPI.add_process_time_header, DocumentAPI.log_request_metrics,
        DataStore.add_process_time_header, DataStore.log_request_metrics,
        countEvents, isRequestCounter, isRequestDurationHist, isErrorCounter, h400]

/-- Projection of the middleware result onto the response headers (empty
when the middleware re-raised). -/
def responseHeaders : Except String Response → List (String × String)
  | .ok r => r.headers
  | .error _ => []

/-- Claim C8: every response returned through the timing middleware of
either service carries the X-Process-Time header, whose value is the
computed processing duration in seconds rendered as a decimal string. -/
theorem c8_process_time_header (ctx : CorrelationCtx) (method path : String)
    (t0 t1 : ℚ) (resp : Response) :
    dictGet "X-Process-Time"
        (responseHeaders (DocumentAPI.add_process_time_header ctx method path t0 t1 (.ok resp)).1)
      = some (decimalString (t1 - t0))
    ∧ dictGet "X-Process-Time"
        (responseHeaders (DataStore.add_process_time_header ctx method path t0 t1 (.ok resp)).1)
      = some (decimalString (t1 - t0)) := by
  constructor <;>
    simp [DocumentAPI.add_process_time_header, DataStore.add_process_time_header,
      responseHeaders, dictGet_dictInsert]

/-- Claim C1: when the body of a tracked database operation raises, the
tracker exit emits exactly one `database_operations_total` increment whose
`success` label is false, attaches the error message and error type to the
span, emits exactly one log line and it is error-level, closes the span
exactly once, and the original exception propagates to the caller unchanged
(`__exit__` returns None, which never suppresses). -/
theorem c1_db_tracker_error_path (ctx : CorrelationCtx) (operation tbl : String)
    (attrs : Labels) (t0 t1 t2 : ℚ) (e : PyExc) :
    (DataStore.withTrackDbOperation ctx operation tbl attrs t0 t1 t2 (.error e)).1
      = .error e
    ∧ dbCounterSuccessValues
        (DataStore.withTrackDbOperation ctx operation tbl attrs t0 t1 t2 (.error e)).2
      = [some (.bool false)]
    ∧ Event.spanSetAttr "error" (.str e.msg)
        ∈ (DataStore.withTrackDbOperation ctx operation tbl attrs t0 t1 t2 (.error e)).2
    ∧ Event.spanSetAttr "error_type" (.str e.excType)
        ∈ (DataStore.withTrackDbOperation ctx operation tbl attrs t0 t1 t2 (.error e)).2
    ∧ logLineLevels
        (DataStore.withTrackDbOperation ctx operation tbl attrs t0 t1 t2 (.error e)).2
      = [.error]
    ∧ countEvents isSpanEnd
        (DataStore.withTrackDbOperation ctx operation tbl attrs t0 t1 t2 (.error e)).2
      = 1 := by
  refine ⟨rfl, ?_, ?_, ?_, ?_, ?_⟩ <;>
    simp [DataStore.withTrackDbOperation, DataStore.dbOperationTrackerExit,
      DataStore.create_span, DataStore.logEvent, DataStore.track_db_operation_span_name,
      dbCounterSuccessValues, isDbOpCounter, eventLabels, dictGet, countEvents,
      isSpanEnd, logLineLevels, dispatchLevel]

/-- Claim C2: every tracked database operation scope, whether the body
completed or raised, emits exactly one `database_operations_total`
increment whose `success` label is true exactly when no exception
propagated, exactly one duration histogram sample, exactly one log line
(debug level on success, error level on failure), sets the span `success`
attribute accordingly, closes the span exactly once, and hands the body's
outcome through unchanged. -/
theorem c2_db_tracker_exact_emission (ctx : CorrelationCtx) (operation tbl : String)
    (attrs : Labels) (t0 t1 t2 : ℚ) (body : Except PyExc Unit) :
    (DataStore.withTrackDbOperation ctx operation tbl attrs t0 t1 t2 body).1 = body
    ∧ dbCounterSuccessValues
        (DataStore.withTrackDbOperation ctx operation tbl attrs t0 t1 t2 body).2
      = [some (.bool (bodySucceeded body))]
    ∧ countEvents isDbOpHist
        (DataStore.withTrackDbOperation ctx operation tbl attrs t0 t1 t2 body).2 = 1
    ∧ logLineLevels
        (DataStore.withTrackDbOperation ctx operation tbl attrs t0 t1 t2 body).2
      = [if bodySucceeded body then Level.debug else Level.error]
    ∧ countEvents isSpanEnd
        (DataStore.withTrackDbOperation ctx operation tbl attrs t0 t1 t2 body).2 = 1
    ∧ Event.spanSetAttr "success" (.bool (bodySucceeded body))
        ∈ (DataStore.withTrackDbOperation ctx operation tbl attrs t0 t1 t2 body).2 := by
  cases body with
  | ok a =>
    cases a
    refine ⟨rfl, ?_, ?_, ?_, ?_, ?_⟩ <;>
      simp [DataStore.withTrackDbOperation, DataStore.dbOperationTrackerExit,
        DataStore.create_span, DataStore.logEvent, DataStore.track_db_operation_span_name,
        dbCounterSuccessValues, isDbOpCounter, isDbOpHist, eventLabels, dictGet,
        countEvents, isSpanEnd, logLineLevels, dispatchLevel, bodySucceeded]
  | error e =>
    refine ⟨rfl, ?_, ?_, ?_, ?_, ?_⟩ <;>
      simp [DataStore.withTrackDbOperation, DataStore.dbOperationTrackerExit,
        DataStore.create_span, DataStore.logEvent, DataStore.track_db_operation_span_name,
        dbCounterSuccessValues, isDbOpCounter, isDbOpHist, eventLabels, dictGet,
        countEvents, isSpanEnd, logLineLevels, dispatchLevel, bodySucceeded]

/-- Claim C7 counterexample: the health-check metric samples do not carry
the service identity or the correlation id.  On a healthy run the
health-check counter is labelled only with `status` and the duration
sample has no labels at all. -/
theorem c7_counterexample :
    metricsAllLabelled (DocumentAPI.health_check ⟨some "abc"⟩ true (some 200) 0 1 2)
      = false :=
  rfl

/-- Claim C7 amended: every metric sample emitted by the request-metrics
step of either service and by the database operation tracker carries both
the service identity and the correlation id in its labels; the health-check
instruments are the exception — their counter sample carries only the
`status` label and their duration sample carries no labels. -/
theorem c7_amended (ctx : CorrelationCtx) (method path operation tbl : String)
    (status : Nat) (dur t0 t1 t2 : ℚ) (attrs : Labels) (body : Except PyExc Unit)
    (fsOk : Bool) (dsStatus : Option Nat) :
    metricsAllLabelled (DocumentAPI.log_request_metrics ctx method path status dur) = true
    ∧ metricsAllLabelled (DataStore.log_request_metrics ctx method path status dur) = true
    ∧ metricsAllLabelled
        (DataStore.withTrackDbOperation ctx operation tbl attrs t0 t1 t2 body).2 = true
    ∧ metricEventLabelKeys (DocumentAPI.health_check ctx fsOk dsStatus t0 t1 t2)
      = [["status"], []] := by
  refine ⟨?_, ?_, ?_, ?_⟩
  · by_cases h400 : 400 ≤ status <;>
      simp [DocumentAPI.log_request_metrics, metricsAllLabelled, metricLabelsOK,
        hasKey, dictGet, h400]
  · by_cases h400 : 400 ≤ status <;>
      simp [DataStore.log_request_metrics, metricsAllLabelled, metricLabelsOK,
        hasKey, dictGet, h400]
  · cases body with
    | ok a =>
      cases a
      simp [DataStore.withTrackDbOperation, DataStore.dbOperationTrackerExit,
        DataStore.create_span, DataStore.logEvent, metricsAllLabelled,
        metricLabelsOK, hasKey, dictGet]
    | error e =>
      simp [DataStore.withTrackDbOperation, DataStore.dbOperationTrackerExit,
        DataStore.create_span, DataStore.logEvent, metricsAllLabelled,
        metricLabelsOK, hasKey, dictGet]
  · simp [DocumentAPI.health_check, DocumentAPI.logEvent, metricEventLabelKeys,
      isMetricEvent, eventLabels]

/-- Claim C10: in `create_span` and `log_with_context` the caller-supplied
kwargs are merged after the built-in fields, so a caller-supplied
`correlation_id` (or `service`) binding replaces the active correlation id
(and the fixed service identity) in the emitted span attribute set and log
record, in both services. -/
theorem c10_kwargs_override (ctx : CorrelationCtx) (now : ℚ)
    (operation message : String) (attrs : Labels) (v w : AttrVal)
    (hnd : (attrs.map Prod.fst).Nodup)
    (hc : dictGet "correlation_id" attrs = some v)
    (hs : dictGet "service" attrs = some w) :
    dictGet "correlation_id" (DocumentAPI.create_span_attrs ctx operation attrs) = some v
    ∧ dictGet "service" (DocumentAPI.create_span_attrs ctx operation attrs) = some w
    ∧ dictGet "correlation_id" (DocumentAPI.buildLogData ctx now message attrs) = some v
    ∧ dictGet "service" (DocumentAPI.buildLogData ctx now message attrs) = some w
    ∧ dictGet "correlation_id" (DataStore.create_span_attrs ctx operation attrs) = some v
    ∧ dictGet "service" (DataStore.create_span_attrs ctx operation attrs) = some w
    ∧ dictGet "correlation_id" (DataStore.buildLogData ctx now message attrs) = some v
    ∧ dictGet "service" (DataStore.buildLogData ctx now message attrs) = some w := by
  refine ⟨?_, ?_, ?_, ?_, ?_, ?_, ?_, ?_⟩ <;>
    first
    | exact dictGet_dictMerge_of_some _ _ _ _ hnd hc
    | exact dictGet_dictMerge_of_some _ _ _ _ hnd hs

/-- Witness for the C10 theorem at a concrete input: ambient id "ambient",
caller kwargs overriding both `correlation_id` and `service`. -/
theorem c10_kwargs_override_witness :
    ((([("correlation_id", AttrVal.str "caller-id"), ("service", AttrVal.str "caller-svc")]
        : Labels).map Prod.fst).Nodup
      ∧ dictGet "correlation_id"
          ([("correlation_id", AttrVal.str "caller-id"),
            ("service", AttrVal.str "caller-svc")] : Labels) = some (.str "caller-id")
      ∧ dictGet "service"
          ([("correlation_id", AttrVal.str "caller-id"),
            ("service", AttrVal.str "caller-svc")] : Labels) = some (.str "caller-svc"))
    ∧ dictGet "correlation_id"
        (DocumentAPI.create_span_attrs ⟨some "ambient"⟩ "op"
          [("correlation_id", AttrVal.str "caller-id"),
           ("service", AttrVal.str "caller-svc")]) = some (.str "caller-id") := by
  refine ⟨⟨by decide, rfl, rfl⟩, ?_⟩
  exact (c10_kwargs_override ⟨some "ambient"⟩ 0 "op" "msg"
    [("correlation_id", AttrVal.str "caller-id"), ("service", AttrVal.str "caller-svc")]
    (.str "caller-id") (.str "caller-svc") (by decide) rfl rfl).1
